import Mathlib

/-!
Verification development for the ace-grader-hub submission-grading pipeline.

The two Supabase edge functions (`supabase/functions/grade-submission/index.ts`
and `supabase/functions/process-rubric/index.ts`) and the SQL rate limiter
(`supabase/migrations/20251222111613_*.sql`, function `check_rate_limit`)
are embedded shallowly:

* Text is modeled as `List Char` (the handlers only use code-unit counts and
  index-based substrings, so a character list is a faithful carrier).
* JavaScript numbers that flow into score arithmetic are modeled as `ℚ`.
* Each handler is a pure function from an environment record (the outcome of
  every external call it makes: database lookups, storage listing and
  download, AI gateway calls) and the current submission status to a result
  record (HTTP-level response, final submission status, whether the storage
  download was invoked, and which rows were written).  Failure of an external
  call is an explicit environment field; exceptions thrown inside the handler
  body (missing API key, `JSON.parse` failure on tool-call arguments) are
  likewise explicit fields, routed to the same place the source's try/catch
  routes them.  Database writes performed by the handlers are modeled as
  taking effect at the store.
-/

namespace AceGrader

/-! ## Text truncation (grade-submission/index.ts lines 299-311)

The source inlines the truncation with `maxLen = MAX_TEXT_LENGTH = 200000`:

    if (submissionText.length > MAX_TEXT_LENGTH) {
      const keepFirst = Math.floor(MAX_TEXT_LENGTH * 0.7);
      const keepLast = Math.floor(MAX_TEXT_LENGTH * 0.3);
      const firstPart = submissionText.substring(0, keepFirst);
      const lastPart = submissionText.substring(submissionText.length - keepLast);
      processedText = firstPart + MARKER + lastPart;
    }

We embed it parametrically in `maxLen`, as the spec's `truncate(text, maxLen)`.
`Math.floor(maxLen * 0.7)` is modeled as `maxLen * 7 / 10` in `Nat`; at the
value the code actually uses (200000) the double-precision computation yields
exactly 140000 = 200000 * 7 / 10, and likewise 60000 for the 0.3 share. -/

/-- The placeholder inserted for the discarded middle section
(`'\n\n[... middle section truncated due to length ...]\n\n'`). -/
def middleMarker : List Char :=
  "\n\n[... middle section truncated due to length ...]\n\n".data

/-- `truncate text maxLen`: identity when `text` fits in `maxLen`, otherwise
first 70% of `maxLen` ++ marker ++ last 30% of `maxLen` of the original. -/
def truncate (text : List Char) (maxLen : Nat) : List Char :=
  if text.length ≤ maxLen then text
  else
    let keepFirst := maxLen * 7 / 10
    let keepLast := maxLen * 3 / 10
    text.take keepFirst ++ middleMarker ++ text.drop (text.length - keepLast)

/-! ## Grading data model (grade-submission/index.ts, process-rubric/index.ts) -/

/-- A rubric criterion as stored in `rubrics.criteria`
(process-rubric/index.ts `criterionSchema`, lines 48-54). -/
structure Criterion where
  id : String
  name : String
  description : String
  weight : ℚ
  category : String
deriving DecidableEq

/-- One entry of the AI grading reply's `criteria_scores`
(grade-submission/index.ts `criterionScoreSchema`, lines 17-22). -/
structure CriterionScore where
  criterion_id : String
  score : ℚ
  rationale : String
  evidence : List String
deriving DecidableEq

/-- `confidence` enum of `aiGradingResponseSchema` (line 28). -/
inductive Confidence where
  | low
  | medium
  | high
deriving DecidableEq

/-- Shape of the grading tool-call payload
(`aiGradingResponseSchema`, lines 24-29). -/
structure AIGradingResponse where
  criteria_scores : List CriterionScore
  strengths : List String
  improvements : List String
  confidence : Confidence
deriving DecidableEq

/-- Zod validation of one criteria_scores entry (`criterionScoreSchema`):
`criterion_id` ≤ 100 chars, `score ∈ [0, 100]`, `rationale` ≤ 2000 chars,
`evidence` ≤ 10 strings of ≤ 500 chars each. -/
def validCriterionScore (cs : CriterionScore) : Bool :=
  decide (cs.criterion_id.length ≤ 100) &&
  decide (0 ≤ cs.score) && decide (cs.score ≤ 100) &&
  decide (cs.rationale.length ≤ 2000) &&
  decide (cs.evidence.length ≤ 10) &&
  cs.evidence.all (fun e => decide (e.length ≤ 500))

/-- Zod validation of the whole grading reply (`aiGradingResponseSchema`):
`criteria_scores` ≤ 50 valid entries, `strengths`/`improvements` ≤ 10
strings of ≤ 500 chars; the confidence enum is enforced by the type. -/
def validGradingResponse (r : AIGradingResponse) : Bool :=
  decide (r.criteria_scores.length ≤ 50) &&
  r.criteria_scores.all validCriterionScore &&
  decide (r.strengths.length ≤ 10) &&
  r.strengths.all (fun s => decide (s.length ≤ 500)) &&
  decide (r.improvements.length ≤ 10) &&
  r.improvements.all (fun s => decide (s.length ≤ 500))

/-- `selectedCriteria` (grade-submission/index.ts lines 143-146): the rubric's
criteria filtered to ids appearing in the focus profile's selection. -/
def selectCriteria (allCriteria : List Criterion) (selectedIds : List String) :
    List Criterion :=
  allCriteria.filter (fun c => selectedIds.contains c.id)

/-- `totalScore` (line 489): sum of the awarded scores in the AI reply. -/
def totalScore (r : AIGradingResponse) : ℚ :=
  (r.criteria_scores.map (fun cs => cs.score)).sum

/-- `maxScore` (line 490): sum of the selected criteria's weights. -/
def maxScore (selected : List Criterion) : ℚ :=
  (selected.map (fun c => c.weight)).sum

/-- `overallScore` (line 491):
`maxScore > 0 ? (totalScore / maxScore) * 100 : 0`. -/
def overallScore (r : AIGradingResponse) (selected : List Criterion) : ℚ :=
  if maxScore selected > 0 then totalScore r / maxScore selected * 100 else 0

/-- `submissions.status` values (migration: default `'pending'`; the handlers
write `'processing'`, `'graded'`, `'error'`). -/
inductive Status where
  | pending
  | processing
  | graded
  | error
deriving DecidableEq

/-- Lower-cased file extension, as dispatched on by both handlers. -/
inductive FileExt where
  | txt
  | md
  | pdf
  | docx
  | other
deriving DecidableEq

/-- The grade-submission handler reads `.txt`/`.md` directly and routes every
other extension through AI-vision extraction (lines 219-296). -/
def FileExt.isPlainText : FileExt → Bool
  | .txt => true
  | .md => true
  | _ => false

/-- The row inserted into `results` (grade-submission/index.ts lines 494-505),
minus the ids. -/
structure ResultRow where
  overall_score : ℚ
  criteria_scores : List CriterionScore
  strengths : List String
  improvements : List String
  confidence : Confidence
deriving DecidableEq

/-- The selected criteria of the spec's §8 overall-score vector:
weights 10, 20, 30. -/
def specSelected : List Criterion :=
  [⟨"a", "A", "dA", 10, "cat"⟩, ⟨"b", "B", "dB", 20, "cat"⟩, ⟨"c", "C", "dC", 30, "cat"⟩]

/-- The awarded scores of the spec's §8 overall-score vector: 8, 15, 20. -/
def specReply : AIGradingResponse :=
  ⟨[⟨"a", 8, "ra", []⟩, ⟨"b", 15, "rb", []⟩, ⟨"c", 20, "rc", []⟩], [], [], .medium⟩

namespace GradeSubmission

/-- `MAX_FILE_SIZE` (grade-submission/index.ts line 31). -/
def MAX_FILE_SIZE : Nat := 10 * 1024 * 1024

/-- `MAX_TEXT_LENGTH` (line 32). -/
def MAX_TEXT_LENGTH : Nat := 200000

/-- Outcome of every external interaction one invocation of the
grade-submission handler performs, in source order.  `toolArgs` describes the
AI reply's tool-call arguments: `none` = no arguments present (line 475),
`some none` = arguments present but `JSON.parse` throws (line 458, routed to
the catch block), `some (some r)` = arguments parse to `r`. -/
structure Env where
  jsonParseOk : Bool
  requestValid : Bool
  hasAuthHeader : Bool
  submissionFound : Bool
  fileExt : FileExt
  focusFound : Bool
  selectedIds : List String
  rubricFound : Bool
  rubricCriteria : List Criterion
  listOk : Bool
  fileFound : Bool
  fileSize : Nat
  downloadOk : Bool
  plainText : List Char
  apiKeySet : Bool
  extractionOk : Bool
  extractedText : List Char
  aiOk : Bool
  aiStatus : Nat
  toolArgs : Option (Option AIGradingResponse)
  insertOk : Bool

/-- The handler's HTTP-level responses. -/
inductive Resp where
  | processingFailed
  | invalidInput
  | authRequired
  | notFound (httpStatus : Nat)
  | fileTooLarge
  | insufficientContent
  | aiError (httpStatus : Nat)
  | success (score : ℚ)
deriving DecidableEq

/-- Observable outcome of one handler invocation: the response, the
submission's final status in the store, whether the storage `download` call
was invoked, and the `results` row inserted (if any). -/
structure Out where
  resp : Resp
  status : Status
  downloadInvoked : Bool
  insertedResult : Option ResultRow
deriving DecidableEq

/-- Tail of the handler from the point where `submissionText` is determined
(lines 298-529).  Every path here runs with status already `processing` and
the download already performed.  The truncation result feeds only the prompt
sent to the AI gateway, whose reply is the `toolArgs` oracle. -/
def gradeWithText (env : Env) (submissionText : List Char) : Out :=
  -- lines 299-311 truncate `submissionText` to
  -- `truncate submissionText MAX_TEXT_LENGTH`; the truncated text feeds only
  -- the prompt, whose reply is the `toolArgs` oracle
  if !env.apiKeySet then
    -- line 315: `throw new Error(...)`; the catch block (530-543) sets error
    ⟨.processingFailed, .error, true, none⟩
  else if !env.aiOk then
    ⟨.aiError (if env.aiStatus = 429 then 429 else if env.aiStatus = 402 then 402 else 500),
      .error, true, none⟩
  else
    match env.toolArgs with
    | none => ⟨.aiError 500, .error, true, none⟩
    | some none => ⟨.processingFailed, .error, true, none⟩
    | some (some raw) =>
      if !validGradingResponse raw then ⟨.aiError 500, .error, true, none⟩
      else if !env.insertOk then ⟨.processingFailed, .error, true, none⟩
      else
        ⟨.success (overallScore raw (selectCriteria env.rubricCriteria env.selectedIds)),
          .graded, true,
          some ⟨overallScore raw (selectCriteria env.rubricCriteria env.selectedIds),
            raw.criteria_scores, raw.strengths, raw.improvements, raw.confidence⟩⟩

/-- The grade-submission `serve` handler (lines 44-559) as a function from
the environment and the submission's current status to the observable
outcome.  A request-body failure throws before `submissionId`/`serviceClient`
are set, so the catch block leaves the status untouched there; after the
ownership check the handler first writes status `processing` and every later
exit overwrites it with `graded` or `error`. -/
def gradeHandler (env : Env) (s0 : Status) : Out :=
  if !env.jsonParseOk then ⟨.processingFailed, s0, false, none⟩
  else if !env.requestValid then ⟨.invalidInput, s0, false, none⟩
  else if !env.hasAuthHeader then ⟨.authRequired, s0, false, none⟩
  else if !env.submissionFound then ⟨.notFound 403, s0, false, none⟩
  else
    -- lines 96-100: status → processing; every branch below overwrites it
    if !env.focusFound then ⟨.notFound 403, .error, false, none⟩
    else if !env.rubricFound then ⟨.notFound 403, .error, false, none⟩
    else if !env.listOk then ⟨.notFound 404, .error, false, none⟩
    else if !env.fileFound then ⟨.notFound 404, .error, false, none⟩
    else if MAX_FILE_SIZE < env.fileSize then ⟨.fileTooLarge, .error, false, none⟩
    else if !env.downloadOk then ⟨.processingFailed, .error, true, none⟩
    else if env.fileExt.isPlainText then
      gradeWithText env env.plainText
    else
      -- vision extraction branch (lines 224-296)
      if !env.apiKeySet then ⟨.processingFailed, .error, true, none⟩
      else if !env.extractionOk then ⟨.processingFailed, .error, true, none⟩
      else if env.extractedText.length < 50 then ⟨.insufficientContent, .error, true, none⟩
      else gradeWithText env env.extractedText

/-! Concrete test vectors for the grade-submission handler. -/

/-- A rubric criterion with weight 10. -/
def crit1 : Criterion := ⟨"c1", "Clarity", "Writing clarity", 10, "Style"⟩

/-- A schema-valid AI reply awarding 50 points to criterion `c1`
(the zod schema caps `score` at the constant 100, not at the weight). -/
def badReply : AIGradingResponse :=
  ⟨[⟨"c1", 50, "overshoots the weight", []⟩], ["s1"], ["i1"], .high⟩

/-- A schema-valid AI reply awarding 8 of 10 points to criterion `c1`. -/
def goodReply : AIGradingResponse :=
  ⟨[⟨"c1", 8, "solid work", []⟩], ["s1"], ["i1"], .high⟩

/-- Environment of a run in which every external call succeeds: a
10-character `.txt` submission, one selected criterion `c1` of weight 10,
and the AI replying `badReply`. -/
def cexEnv : Env where
  jsonParseOk := true
  requestValid := true
  hasAuthHeader := true
  submissionFound := true
  fileExt := .txt
  focusFound := true
  selectedIds := ["c1"]
  rubricFound := true
  rubricCriteria := [crit1]
  listOk := true
  fileFound := true
  fileSize := 1000
  downloadOk := true
  plainText := "short text".data
  apiKeySet := true
  extractionOk := true
  extractedText := []
  aiOk := true
  aiStatus := 200
  toolArgs := some (some badReply)
  insertOk := true

/-- Same run with the in-range AI reply. -/
def goodEnv : Env := { cexEnv with toolArgs := some (some goodReply) }

/-- Same run with a `.pdf` submission whose vision extraction yields only 9
characters. -/
def visionEnv : Env := { cexEnv with fileExt := .pdf, extractedText := "too short".data }

/-- Same run with the submission ownership lookup failing. -/
def ownFailEnv : Env := { cexEnv with submissionFound := false }

/-- Same run with a listed file size just above the 10 MB cap. -/
def bigFileEnv : Env := { cexEnv with fileSize := 10 * 1024 * 1024 + 1 }

/-- The row the handler stores for `cexEnv`: overall score
100 * 50 / 10 = 500. -/
def cexResult : ResultRow :=
  ⟨500, [⟨"c1", 50, "overshoots the weight", []⟩], ["s1"], ["i1"], .high⟩

/-- The row the handler stores for `goodEnv`: overall score
100 * 8 / 10 = 80. -/
def goodResult : ResultRow :=
  ⟨80, [⟨"c1", 8, "solid work", []⟩], ["s1"], ["i1"], .high⟩

end GradeSubmission

namespace ProcessRubric

/-- `MAX_FILE_SIZE` (process-rubric/index.ts line 62). -/
def MAX_FILE_SIZE : Nat := 5 * 1024 * 1024

/-- Shape of the criteria-extraction tool-call payload
(`aiResponseSchema`, lines 56-58). -/
structure AIResponse where
  criteria : List Criterion
deriving DecidableEq

/-- Zod validation of one extracted criterion (`criterionSchema`, lines
48-54): non-empty bounded strings, `weight ∈ [0, 100]`. -/
def validCriterion (c : Criterion) : Bool :=
  decide (1 ≤ c.id.length) && decide (c.id.length ≤ 100) &&
  decide (1 ≤ c.name.length) && decide (c.name.length ≤ 200) &&
  decide (1 ≤ c.description.length) && decide (c.description.length ≤ 1000) &&
  decide (0 ≤ c.weight) && decide (c.weight ≤ 100) &&
  decide (1 ≤ c.category.length) && decide (c.category.length ≤ 100)

/-- Zod validation of the whole extraction reply (`aiResponseSchema`):
at most 50 valid criteria. -/
def validAIResponse (r : AIResponse) : Bool :=
  decide (r.criteria.length ≤ 50) && r.criteria.all validCriterion

/-- Outcome of every external interaction one invocation of the
process-rubric handler performs, in source order.  `toolArgs` as in
`GradeSubmission.Env`: `none` = the reply carries no tool-call arguments
(the handler then keeps its `criteria = []` initializer, line 381),
`some none` = `JSON.parse` throws, `some (some r)` = arguments parse to `r`. -/
structure Env where
  jsonParseOk : Bool
  requestValid : Bool
  hasAuthHeader : Bool
  userOk : Bool
  rateLimitRpcError : Bool
  withinLimit : Bool
  rubricFound : Bool
  listOk : Bool
  fileFound : Bool
  fileSize : Nat
  downloadOk : Bool
  fileExt : FileExt
  plainText : List Char
  docxOk : Bool
  docxText : List Char
  apiKeySet : Bool
  extractionOk : Bool
  pdfText : List Char
  aiOk : Bool
  aiStatus : Nat
  toolArgs : Option (Option AIResponse)
  updateOk : Bool
  profileInsertOk : Bool

/-- The handler's HTTP-level responses. -/
inductive Resp where
  | processingFailed
  | invalidInput
  | authRequired
  | rateLimited
  | notFound (httpStatus : Nat)
  | fileTooLarge
  | docxParseFailed
  | unsupportedFileType
  | insufficientContent
  | aiError (httpStatus : Nat)
  | success (criteria : List Criterion)
deriving DecidableEq

/-- Observable outcome of one handler invocation: the response, whether the
storage `download` call was invoked, the criteria list written to the rubric
row (if that update ran and succeeded), and the selected-criteria ids of the
default focus profile row (if its insert succeeded). -/
structure Out where
  resp : Resp
  downloadInvoked : Bool
  storedCriteria : Option (List Criterion)
  profileInserted : Option (List String)
deriving DecidableEq

/-- Tail of the handler from the point where `fileText` is determined
(lines 282-434).  All paths here run with the download already performed. -/
def processText (env : Env) (fileText : List Char) : Out :=
  if fileText.length < 20 then ⟨.insufficientContent, true, none, none⟩
  else if 100000 < fileText.length then ⟨.invalidInput, true, none, none⟩
  else if !env.apiKeySet then
    -- line 301: `throw new Error(...)` → catch → generic 500
    ⟨.processingFailed, true, none, none⟩
  else if !env.aiOk then
    ⟨.aiError (if env.aiStatus = 429 then 429 else if env.aiStatus = 402 then 402 else 500),
      true, none, none⟩
  else
    match env.toolArgs with
    | some none => ⟨.processingFailed, true, none, none⟩
    | some (some raw) =>
      if !validAIResponse raw then ⟨.aiError 500, true, none, none⟩
      else
        if !env.updateOk then ⟨.processingFailed, true, none, none⟩
        else
          ⟨.success raw.criteria, true, some raw.criteria,
            if env.profileInsertOk then some (raw.criteria.map (fun c => c.id)) else none⟩
    | none =>
      -- no tool-call arguments: `criteria` keeps its initializer `[]` and
      -- the handler proceeds to the rubric update (lines 381-434)
      if !env.updateOk then ⟨.processingFailed, true, none, none⟩
      else ⟨.success [], true, some [], if env.profileInsertOk then some [] else none⟩

/-- The process-rubric `serve` handler (lines 74-452) as a function from the
environment to the observable outcome.  A rate-limit RPC error is logged and
ignored (fail-open, lines 128-129); the `withinLimit` verdict gates only when
the RPC succeeded. -/
def processRubric (env : Env) : Out :=
  if !env.jsonParseOk then ⟨.processingFailed, false, none, none⟩
  else if !env.requestValid then ⟨.invalidInput, false, none, none⟩
  else if !env.hasAuthHeader then ⟨.authRequired, false, none, none⟩
  else if !env.userOk then ⟨.authRequired, false, none, none⟩
  else if !env.rateLimitRpcError && !env.withinLimit then ⟨.rateLimited, false, none, none⟩
  else if !env.rubricFound then ⟨.notFound 403, false, none, none⟩
  else if !env.listOk then ⟨.notFound 404, false, none, none⟩
  else if !env.fileFound then ⟨.notFound 404, false, none, none⟩
  else if MAX_FILE_SIZE < env.fileSize then ⟨.fileTooLarge, false, none, none⟩
  else if !env.downloadOk then ⟨.processingFailed, true, none, none⟩
  else
    match env.fileExt with
    | .txt => processText env env.plainText
    | .md => processText env env.plainText
    | .docx =>
      if !env.docxOk then ⟨.docxParseFailed, true, none, none⟩
      else processText env env.docxText
    | .pdf =>
      if !env.apiKeySet then ⟨.processingFailed, true, none, none⟩
      else if !env.extractionOk then ⟨.processingFailed, true, none, none⟩
      else processText env env.pdfText
    | .other => ⟨.unsupportedFileType, true, none, none⟩

/-! Concrete test vectors for the process-rubric handler. -/

/-- Environment of a run in which every external call succeeds: a
29-character `.txt` rubric and the AI extracting one criterion. -/
def renvGood : Env where
  jsonParseOk := true
  requestValid := true
  hasAuthHeader := true
  userOk := true
  rateLimitRpcError := false
  withinLimit := true
  rubricFound := true
  listOk := true
  fileFound := true
  fileSize := 1000
  downloadOk := true
  fileExt := .txt
  plainText := "Criterion: clarity, 10 points".data
  docxOk := true
  docxText := []
  apiKeySet := true
  extractionOk := true
  pdfText := []
  aiOk := true
  aiStatus := 200
  toolArgs := some (some ⟨[GradeSubmission.crit1]⟩)
  updateOk := true
  profileInsertOk := true

/-- A rubric text of 100001 characters. -/
def longText : List Char := List.replicate 100001 'a'

/-- Same run with an extracted rubric text of 100001 characters. -/
def renvLong : Env := { renvGood with plainText := longText }

/-- Same run with an AI reply carrying no tool-call arguments. -/
def renvNoArgs : Env := { renvGood with toolArgs := none }

/-- An extraction reply that fails `criterionSchema` (empty `id`). -/
def badCriteria : AIResponse := ⟨[⟨"", "Empty id", "desc", 10, "Content"⟩]⟩

/-- Same run with the schema-invalid extraction reply. -/
def renvBadArgs : Env := { renvGood with toolArgs := some (some badCriteria) }

/-- Same run with a listed file size just above the 5 MB cap. -/
def renvBig : Env := { renvGood with fileSize := 5 * 1024 * 1024 + 1 }

end ProcessRubric

namespace RateLimit

/-- Key of a `rate_limits` row: the unique index is on
`(user_id, endpoint, window_minute)` (migration lines 12-13). -/
structure Key where
  user_id : String
  endpoint : String
  window_minute : String
deriving DecidableEq

/-- The `rate_limits` table: `request_count` per present key. -/
def State := Key → Option Nat

/-- A table with no rows. -/
def emptyState : State := fun _ => none

/-- `public.check_rate_limit(p_user_id, p_endpoint, p_max_requests)`
(migration lines 22-49): atomically upsert the counter row for the key —
insert with `request_count = 1` if absent, else increment — and return
`request_count <= p_max_requests`.  The window component of the key is the
minute-granularity text of `now()`; we take the computed key as input. -/
def check_rate_limit (s : State) (k : Key) (p_max_requests : Nat) : Bool × State :=
  let newCount :=
    match s k with
    | none => 1
    | some c => c + 1
  (decide (newCount ≤ p_max_requests),
    fun k2 => if k2 = k then some newCount else s k2)

/-- The table after `n` consecutive calls of `check_rate_limit` with the
same key and limit, starting from `s`. -/
def stateAfter (s : State) (k : Key) (m : Nat) : Nat → State
  | 0 => s
  | n + 1 => (check_rate_limit (stateAfter s k m n) k m).2

/-- The boolean verdict of call number `n + 1` in such a run. -/
def callResult (s : State) (k : Key) (m n : Nat) : Bool :=
  (check_rate_limit (stateAfter s k m n) k m).1

/-- A concrete key: user `user-1`, endpoint `process-rubric`, one minute. -/
def k1 : Key := ⟨"user-1", "process-rubric", "2025-12-22-11-16"⟩

/-- The same user and endpoint in the following minute window. -/
def k2 : Key := ⟨"user-1", "process-rubric", "2025-12-22-11-17"⟩

end RateLimit

/-! ## Theorems -/

theorem middleMarker_length : middleMarker.length = 52 := by decide

theorem truncate_of_le {text : List Char} {maxLen : Nat}
    (h : text.length ≤ maxLen) : truncate text maxLen = text := by
  simp [truncate, h]

theorem truncate_of_gt {text : List Char} {maxLen : Nat}
    (h : maxLen < text.length) :
    truncate text maxLen =
      text.take (maxLen * 7 / 10) ++ middleMarker ++
        text.drop (text.length - maxLen * 3 / 10) := by
  simp [truncate, Nat.not_le.mpr h]

/-- Arithmetic fact used below: the two floor shares sum to at least
`maxLen - 1` and each is at most `maxLen`. -/
theorem keep_shares (maxLen : Nat) :
    maxLen * 7 / 10 ≤ maxLen ∧ maxLen * 3 / 10 ≤ maxLen ∧
      maxLen ≤ maxLen * 7 / 10 + maxLen * 3 / 10 + 1 := by
  have h7 := Nat.div_add_mod (maxLen * 7) 10
  have h3 := Nat.div_add_mod (maxLen * 3) 10
  have m7 : maxLen * 7 % 10 < 10 := Nat.mod_lt _ (by norm_num)
  have m3 : maxLen * 3 % 10 < 10 := Nat.mod_lt _ (by norm_num)
  omega

/-- Length of a truncated over-long text: the two retained shares plus the
52-character marker. -/
theorem truncate_length_of_gt {text : List Char} {maxLen : Nat}
    (h : maxLen < text.length) :
    (truncate text maxLen).length =
      maxLen * 7 / 10 + 52 + maxLen * 3 / 10 := by
  obtain ⟨h7, h3, _⟩ := keep_shares maxLen
  rw [truncate_of_gt h]
  simp [List.length_append, middleMarker_length]
  omega

/-- A truncated over-long text still begins with the first `keepFirst`
characters of the original. -/
theorem truncate_take_of_gt {text : List Char} {maxLen : Nat}
    (h : maxLen < text.length) :
    (truncate text maxLen).take (maxLen * 7 / 10) = text.take (maxLen * 7 / 10) := by
  obtain ⟨h7, _, _⟩ := keep_shares maxLen
  rw [truncate_of_gt h, List.append_assoc]
  apply List.take_left'
  rw [List.length_take]
  omega

/-- A truncated over-long text still ends with the last `keepLast`
characters of the original. -/
theorem truncate_drop_of_gt {text : List Char} {maxLen : Nat}
    (h : maxLen < text.length) :
    (truncate text maxLen).drop ((truncate text maxLen).length - maxLen * 3 / 10) =
      text.drop (text.length - maxLen * 3 / 10) := by
  obtain ⟨h7, _, _⟩ := keep_shares maxLen
  have hlen := truncate_length_of_gt h
  rw [hlen]
  have harg : maxLen * 7 / 10 + 52 + maxLen * 3 / 10 - maxLen * 3 / 10 =
      maxLen * 7 / 10 + 52 := by omega
  rw [harg, truncate_of_gt h]
  apply List.drop_left'
  rw [List.length_append, List.length_take, middleMarker_length]
  omega

/-- C5 (confirmed): the text truncation operation is idempotent: for every
text and every bound `N`, `truncate (truncate text N) N = truncate text N`.
When the text fits, both applications are the identity; when it does not,
the truncated output preserves exactly the first `⌊0.7N⌋` and last `⌊0.3N⌋`
characters of the original, and a second truncation (the output, being
`⌊0.7N⌋ + 52 + ⌊0.3N⌋ > N` characters long, is truncated again) re-extracts
exactly those, reproducing the same string. -/
theorem truncate_idempotent (text : List Char) (maxLen : Nat) :
    truncate (truncate text maxLen) maxLen = truncate text maxLen := by
  by_cases h : text.length ≤ maxLen
  · rw [truncate_of_le h, truncate_of_le h]
  · push_neg at h
    obtain ⟨h7, h3, hsum⟩ := keep_shares maxLen
    have hlen := truncate_length_of_gt h
    have hgt : maxLen < (truncate text maxLen).length := by omega
    rw [truncate_of_gt hgt, truncate_take_of_gt h, truncate_drop_of_gt h]
    exact (truncate_of_gt h).symm

namespace RateLimit

theorem stateAfter_self {s : State} {k : Key} {m : Nat} (h : s k = none) :
    ∀ n, stateAfter s k m (n + 1) k = some (n + 1) := by
  intro n
  induction n with
  | zero => simp [stateAfter, check_rate_limit, h]
  | succ n ih =>
    have step : stateAfter s k m (n + 1 + 1) =
        (check_rate_limit (stateAfter s k m (n + 1)) k m).2 := rfl
    rw [step]
    simp [check_rate_limit, ih]

theorem stateAfter_frame (s : State) (k : Key) (m : Nat) {j : Key}
    (h : j ≠ k) : ∀ n, stateAfter s k m n j = s j := by
  intro n
  induction n with
  | zero => rfl
  | succ n ih => simp [stateAfter, check_rate_limit, h, ih]

end RateLimit

/-- C10 (confirmed): starting from a table with no row for the key, the
`n+1`-st `check_rate_limit` call with that key returns `allowed` exactly when
the incremented count `n+1` is at most `maxRequests`; the row's count after
is `n+1` (so with `maxRequests = 10` the 10th call is allowed and the 11th
is not), and rows of every other key — in particular of other minute
windows — are untouched, so the first call under the next window's key again
counts from 1. -/
theorem check_rate_limit_boundary (s : RateLimit.State) (k : RateLimit.Key)
    (m n : Nat) (h : s k = none) :
    RateLimit.callResult s k m n = decide (n + 1 ≤ m) ∧
    RateLimit.stateAfter s k m (n + 1) k = some (n + 1) ∧
    ∀ j, j ≠ k → RateLimit.stateAfter s k m (n + 1) j = s j := by
  refine ⟨?_, RateLimit.stateAfter_self h n,
    fun j hj => RateLimit.stateAfter_frame s k m hj (n + 1)⟩
  cases n with
  | zero => simp [RateLimit.callResult, RateLimit.stateAfter, RateLimit.check_rate_limit, h]
  | succ n =>
    simp [RateLimit.callResult, RateLimit.check_rate_limit, RateLimit.stateAfter_self h]

/-- Witness for C10: user `user-1` on `process-rubric` with limit 10 — the
10th call in the window is allowed, the 11th is not, and the first call in
the next minute window is allowed again. -/
theorem check_rate_limit_boundary_witness :
    RateLimit.emptyState RateLimit.k1 = none ∧
    RateLimit.callResult RateLimit.emptyState RateLimit.k1 10 9 = true ∧
    RateLimit.callResult RateLimit.emptyState RateLimit.k1 10 10 = false ∧
    RateLimit.callResult (RateLimit.stateAfter RateLimit.emptyState RateLimit.k1 10 11)
      RateLimit.k2 10 0 = true := by
  have h1 := check_rate_limit_boundary RateLimit.emptyState RateLimit.k1 10 9 rfl
  have h2 := check_rate_limit_boundary RateLimit.emptyState RateLimit.k1 10 10 rfl
  have hfresh : RateLimit.stateAfter RateLimit.emptyState RateLimit.k1 10 11 RateLimit.k2 =
      none :=
    ((check_rate_limit_boundary RateLimit.emptyState RateLimit.k1 10 10 rfl).2.2
      RateLimit.k2 (by decide)).trans rfl
  have h3 := check_rate_limit_boundary
    (RateLimit.stateAfter RateLimit.emptyState RateLimit.k1 10 11) RateLimit.k2 10 0 hfresh
  exact ⟨rfl, by rw [h1.1]; decide, by rw [h2.1]; decide, by rw [h3.1]; decide⟩

/-- C2 (confirmed): when the selected-criteria weight sum is positive the
overall score is `100 × (Σ awarded scores) / (Σ selected weights)`, and an
empty selected-criteria set yields overall score 0 via the guarded branch,
with no division performed. -/
theorem overallScore_formula (r : AIGradingResponse) (selected : List Criterion) :
    (0 < maxScore selected →
      overallScore r selected = 100 * totalScore r / maxScore selected) ∧
    (selected = [] → overallScore r selected = 0) := by
  constructor
  · intro h
    rw [overallScore, if_pos h, div_mul_eq_mul_div, mul_comm (totalScore r) 100]
  · intro h
    subst h
    simp [overallScore, maxScore]

/-- Witness for C2, on the spec's §8 vector: weights 10, 20, 30 and scores
8, 15, 20 give `100 * 43 / 60`, and the empty selection gives 0. -/
theorem overallScore_formula_witness :
    0 < maxScore specSelected ∧
    overallScore specReply specSelected = 100 * totalScore specReply / maxScore specSelected ∧
    overallScore specReply [] = 0 := by
  have hpos : 0 < maxScore specSelected := by
    simp [maxScore, specSelected]
    norm_num
  exact ⟨hpos, (overallScore_formula specReply specSelected).1 hpos,
    (overallScore_formula specReply []).2 rfl⟩

namespace GradeSubmission

/-- Every exit of the post-extraction tail leaves the submission status
`graded` or `error`. -/
theorem gradeWithText_status (env : Env) (t : List Char) :
    (gradeWithText env t).status = Status.graded ∨
      (gradeWithText env t).status = Status.error := by
  unfold gradeWithText
  repeat' split
  all_goals simp

/-- C1 (corrected): once an invocation passes the request-body, auth-header
and submission-ownership gates — the point at which it writes status
`processing` — every exit path leaves the status `graded` or `error`.  The
claim as stated fails for invocations aborting before that point, which
leave the status untouched (see the counterexample). -/
theorem gradeHandler_status_terminal (env : Env) (s0 : Status)
    (h1 : env.jsonParseOk = true) (h2 : env.requestValid = true)
    (h3 : env.hasAuthHeader = true) (h4 : env.submissionFound = true) :
    (gradeHandler env s0).status = Status.graded ∨
      (gradeHandler env s0).status = Status.error := by
  unfold gradeHandler
  rw [h1, h2, h3, h4]
  simp only [Bool.not_true, Bool.false_eq_true, if_false]
  repeat' split
  all_goals first
    | (left; rfl)
    | (right; rfl)
    | exact gradeWithText_status env env.plainText
    | exact gradeWithText_status env env.extractedText

/-- Witness for C1 as amended: a fully successful run starting from
`pending` ends `graded`-or-`error` (here: `graded`). -/
theorem gradeHandler_status_terminal_witness :
    (gradeHandler cexEnv Status.pending).status = Status.graded ∨
      (gradeHandler cexEnv Status.pending).status = Status.error :=
  gradeHandler_status_terminal cexEnv Status.pending rfl rfl rfl rfl

/-- Counterexample to C1 as stated: when the submission-ownership lookup
fails the handler returns 403 before ever touching the status, so a
submission that entered as `pending` is left `pending`, which is neither
`graded` nor `error`. -/
theorem gradeHandler_status_counterexample :
    (gradeHandler ownFailEnv Status.pending).status = Status.pending ∧
    (gradeHandler ownFailEnv Status.pending).status ≠ Status.graded ∧
    (gradeHandler ownFailEnv Status.pending).status ≠ Status.error := by
  have h : gradeHandler ownFailEnv Status.pending =
      ⟨Resp.notFound 403, Status.pending, false, none⟩ := by
    unfold gradeHandler
    simp [ownFailEnv, cexEnv]
  rw [h]
  exact ⟨rfl, by decide, by decide⟩

/-- Full evaluation of the handler on `cexEnv`: the out-of-range reply is
accepted and stored with overall score 500. -/
theorem gradeHandler_cexEnv :
    gradeHandler cexEnv Status.pending =
      ⟨Resp.success 500, Status.graded, true, some cexResult⟩ := by
  have hval : validGradingResponse badReply = true := by decide
  have hsel : selectCriteria [crit1] ["c1"] = [crit1] := rfl
  have hmax : maxScore [crit1] = 10 := by simp [maxScore, crit1]
  have htot : totalScore badReply = 50 := by simp [totalScore, badReply]
  have hscore : overallScore badReply [crit1] = 500 := by
    rw [overallScore, hmax, htot]
    norm_num
  unfold gradeHandler gradeWithText
  simp [cexEnv, FileExt.isPlainText, MAX_FILE_SIZE, hval, hsel, hscore]
  rfl

/-- Full evaluation of the handler on `goodEnv`: the in-range reply is
stored with overall score 80. -/
theorem gradeHandler_goodEnv :
    gradeHandler goodEnv Status.pending =
      ⟨Resp.success 80, Status.graded, true, some goodResult⟩ := by
  have hval : validGradingResponse goodReply = true := by decide
  have hsel : selectCriteria [crit1] ["c1"] = [crit1] := rfl
  have hmax : maxScore [crit1] = 10 := by simp [maxScore, crit1]
  have htot : totalScore goodReply = 8 := by simp [totalScore, goodReply]
  have hscore : overallScore goodReply [crit1] = 80 := by
    rw [overallScore, hmax, htot]
    norm_num
  unfold gradeHandler gradeWithText
  simp [goodEnv, cexEnv, FileExt.isPlainText, MAX_FILE_SIZE, hval, hsel, hscore]
  rfl

/-- Inversion for the post-extraction tail: a stored `results` row comes from
a schema-valid parsed tool-call reply, and carries exactly the computed
overall score and the reply's fields. -/
theorem gradeWithText_inserted (env : Env) (t : List Char) (r : ResultRow)
    (h : (gradeWithText env t).insertedResult = some r) :
    ∃ raw, env.toolArgs = some (some raw) ∧ validGradingResponse raw = true ∧
      r = ⟨overallScore raw (selectCriteria env.rubricCriteria env.selectedIds),
        raw.criteria_scores, raw.strengths, raw.improvements, raw.confidence⟩ := by
  unfold gradeWithText at h
  repeat' split at h
  all_goals try exact Option.noConfusion h
  rename_i raw heq hvalid hins
  refine ⟨raw, heq, by simpa using hvalid, ?_⟩
  injection h with h2
  exact h2.symm

/-- The handler's stored row, if any, is the one stored by the
post-extraction tail on one of the two extracted texts. -/
theorem gradeHandler_inserted (env : Env) (s0 : Status) :
    (gradeHandler env s0).insertedResult = none ∨
    (gradeHandler env s0).insertedResult = (gradeWithText env env.plainText).insertedResult ∨
    (gradeHandler env s0).insertedResult =
      (gradeWithText env env.extractedText).insertedResult := by
  unfold gradeHandler
  cases h1 : env.jsonParseOk with
  | false => exact Or.inl rfl
  | true =>
  cases h2 : env.requestValid with
  | false => exact Or.inl rfl
  | true =>
  cases h3 : env.hasAuthHeader with
  | false => exact Or.inl rfl
  | true =>
  cases h4 : env.submissionFound with
  | false => exact Or.inl rfl
  | true =>
  cases h5 : env.focusFound with
  | false => exact Or.inl rfl
  | true =>
  cases h6 : env.rubricFound with
  | false => exact Or.inl rfl
  | true =>
  cases h7 : env.listOk with
  | false => exact Or.inl rfl
  | true =>
  cases h8 : env.fileFound with
  | false => exact Or.inl rfl
  | true =>
  by_cases h9 : MAX_FILE_SIZE < env.fileSize
  · rw [if_pos h9]
    exact Or.inl rfl
  · rw [if_neg h9]
    cases h10 : env.downloadOk with
    | false => exact Or.inl rfl
    | true =>
    cases h11 : env.fileExt.isPlainText with
    | true =>
      rw [if_pos rfl]
      exact Or.inr (Or.inl rfl)
    | false =>
    rw [if_neg (by simp)]
    cases h12 : env.apiKeySet with
    | false => exact Or.inl rfl
    | true =>
    cases h13 : env.extractionOk with
    | false => exact Or.inl rfl
    | true =>
    by_cases h14 : env.extractedText.length < 50
    · rw [if_pos h14]
      exact Or.inl rfl
    · rw [if_neg h14]
      exact Or.inr (Or.inr rfl)

/-- Inversion for the whole handler. -/
theorem gradeHandler_inserted_inv (env : Env) (s0 : Status) (r : ResultRow)
    (h : (gradeHandler env s0).insertedResult = some r) :
    ∃ raw, env.toolArgs = some (some raw) ∧ validGradingResponse raw = true ∧
      r = ⟨overallScore raw (selectCriteria env.rubricCriteria env.selectedIds),
        raw.criteria_scores, raw.strengths, raw.improvements, raw.confidence⟩ := by
  rcases gradeHandler_inserted env s0 with h0 | h1 | h1
  · rw [h0] at h
    exact Option.noConfusion h
  all_goals rw [h1] at h
  · exact gradeWithText_inserted env env.plainText r h
  · exact gradeWithText_inserted env env.extractedText r h

end GradeSubmission

/-- Each entry of a schema-valid reply has `0 ≤ score ≤ 100`. -/
theorem validCriterionScore_bounds (cs : CriterionScore)
    (h : validCriterionScore cs = true) : 0 ≤ cs.score ∧ cs.score ≤ 100 := by
  unfold validCriterionScore at h
  simp only [Bool.and_eq_true, decide_eq_true_eq] at h
  exact ⟨h.1.1.1.1.2, h.1.1.1.2⟩

/-- A schema-valid reply validates each of its criteria_scores entries. -/
theorem validGradingResponse_entries (r : AIGradingResponse)
    (h : validGradingResponse r = true) :
    ∀ cs ∈ r.criteria_scores, validCriterionScore cs = true := by
  unfold validGradingResponse at h
  simp only [Bool.and_eq_true] at h
  have hall := h.1.1.1.1.2
  intro cs hcs
  exact List.all_eq_true.mp hall cs hcs

/-- The awarded total of a schema-valid reply is nonnegative. -/
theorem totalScore_nonneg (r : AIGradingResponse)
    (h : validGradingResponse r = true) : 0 ≤ totalScore r := by
  unfold totalScore
  apply List.sum_nonneg
  intro x hx
  simp only [List.mem_map] at hx
  obtain ⟨cs, hcs, rfl⟩ := hx
  exact (validCriterionScore_bounds cs (validGradingResponse_entries r h cs hcs)).1

/-- The computed overall score of a schema-valid reply is nonnegative. -/
theorem overallScore_nonneg (r : AIGradingResponse) (selected : List Criterion)
    (h : validGradingResponse r = true) : 0 ≤ overallScore r selected := by
  unfold overallScore
  split
  · next hmax =>
    exact mul_nonneg (div_nonneg (totalScore_nonneg r h) (le_of_lt hmax)) (by norm_num)
  · exact le_refl 0

/-- The computed overall score stays at most 100 exactly when the awarded
total does not exceed the selected weight sum. -/
theorem overallScore_le_100 (r : AIGradingResponse) (selected : List Criterion)
    (hle : totalScore r ≤ maxScore selected) : overallScore r selected ≤ 100 := by
  unfold overallScore
  split
  · next hmax =>
    have h1 : totalScore r / maxScore selected ≤ 1 := (div_le_one hmax).mpr hle
    calc totalScore r / maxScore selected * 100 ≤ 1 * 100 :=
        mul_le_mul_of_nonneg_right h1 (by norm_num)
      _ = 100 := one_mul 100
  · norm_num

/-- C3 (corrected): every stored `results` row has `overall_score ≥ 0`, and
`overall_score ≤ 100` holds exactly under the extra hypothesis that the
reply's awarded total does not exceed the selected weight sum.  The claim's
unconditional `[0, 100]` bound fails: the zod schema caps each score at the
constant 100, not at its criterion's weight, so a schema-valid reply can
push the stored overall score above 100 (see the counterexample). -/
theorem storedResult_score_bounds (env : GradeSubmission.Env) (s0 : Status)
    (r : ResultRow)
    (h : (GradeSubmission.gradeHandler env s0).insertedResult = some r) :
    0 ≤ r.overall_score ∧
    ((r.criteria_scores.map (fun cs => cs.score)).sum ≤
        maxScore (selectCriteria env.rubricCriteria env.selectedIds) →
      r.overall_score ≤ 100) := by
  obtain ⟨raw, hta, hval, rfl⟩ := GradeSubmission.gradeHandler_inserted_inv env s0 r h
  constructor
  · exact overallScore_nonneg raw _ hval
  · intro hle
    exact overallScore_le_100 raw _ hle

/-- Witness for C3 as amended: the in-range run stores overall score 80,
which the theorem bounds into `[0, 100]`. -/
theorem storedResult_score_bounds_witness :
    (GradeSubmission.gradeHandler GradeSubmission.goodEnv Status.pending).insertedResult =
      some GradeSubmission.goodResult ∧
    0 ≤ GradeSubmission.goodResult.overall_score ∧
    GradeSubmission.goodResult.overall_score ≤ 100 := by
  have h : (GradeSubmission.gradeHandler GradeSubmission.goodEnv Status.pending).insertedResult =
      some GradeSubmission.goodResult := by
    rw [GradeSubmission.gradeHandler_goodEnv]
  have hb := storedResult_score_bounds GradeSubmission.goodEnv Status.pending
    GradeSubmission.goodResult h
  refine ⟨h, hb.1, hb.2 ?_⟩
  show ((GradeSubmission.goodResult.criteria_scores.map (fun cs => cs.score)).sum ≤
    maxScore (selectCriteria GradeSubmission.goodEnv.rubricCriteria
      GradeSubmission.goodEnv.selectedIds))
  have hsel : selectCriteria GradeSubmission.goodEnv.rubricCriteria
      GradeSubmission.goodEnv.selectedIds = [GradeSubmission.crit1] := rfl
  rw [hsel]
  simp [GradeSubmission.goodResult, maxScore, GradeSubmission.crit1]
  norm_num

/-- Counterexample to C3 as stated: with one selected criterion of weight 10
and the schema-valid reply awarding it 50 points, the stored row's
`overall_score` is 500, outside `[0, 100]`. -/
theorem storedResult_score_counterexample :
    validGradingResponse GradeSubmission.badReply = true ∧
    (GradeSubmission.gradeHandler GradeSubmission.cexEnv Status.pending).insertedResult =
      some GradeSubmission.cexResult ∧
    GradeSubmission.cexResult.overall_score = 500 ∧
    ¬ GradeSubmission.cexResult.overall_score ≤ 100 := by
  refine ⟨by decide, ?_, rfl, ?_⟩
  · rw [GradeSubmission.gradeHandler_cexEnv]
  · show ¬ (500 : ℚ) ≤ 100
    norm_num

/-- C4 (corrected): every entry of a stored row's `criteria_scores` has
`0 ≤ score ≤ 100` — the fixed constant bound of the zod schema.  The claim's
per-criterion bound `score ≤ weight_of(criterion)` fails: validation never
compares a score to its criterion's weight (see the counterexample). -/
theorem storedResult_entry_bounds (env : GradeSubmission.Env) (s0 : Status)
    (r : ResultRow)
    (h : (GradeSubmission.gradeHandler env s0).insertedResult = some r) :
    ∀ cs ∈ r.criteria_scores, 0 ≤ cs.score ∧ cs.score ≤ 100 := by
  obtain ⟨raw, hta, hval, rfl⟩ := GradeSubmission.gradeHandler_inserted_inv env s0 r h
  intro cs hcs
  exact validCriterionScore_bounds cs (validGradingResponse_entries raw hval cs hcs)

/-- Witness for C4 as amended: the stored entry of the in-range run has its
score 8 within `[0, 100]`. -/
theorem storedResult_entry_bounds_witness :
    (GradeSubmission.gradeHandler GradeSubmission.goodEnv Status.pending).insertedResult =
      some GradeSubmission.goodResult ∧
    0 ≤ (⟨"c1", 8, "solid work", []⟩ : CriterionScore).score ∧
    (⟨"c1", 8, "solid work", []⟩ : CriterionScore).score ≤ 100 := by
  have h : (GradeSubmission.gradeHandler GradeSubmission.goodEnv Status.pending).insertedResult =
      some GradeSubmission.goodResult := by
    rw [GradeSubmission.gradeHandler_goodEnv]
  have hb := storedResult_entry_bounds GradeSubmission.goodEnv Status.pending
    GradeSubmission.goodResult h ⟨"c1", 8, "solid work", []⟩
    (by simp [GradeSubmission.goodResult])
  exact ⟨h, hb.1, hb.2⟩

/-- Counterexample to C4 as stated: the stored row for `cexEnv` contains the
entry `(criterion_id := "c1", score := 50)` while the rubric criterion `c1`
has weight 10, so `score ≤ weight_of(criterion)` fails. -/
theorem storedResult_entry_counterexample :
    (GradeSubmission.gradeHandler GradeSubmission.cexEnv Status.pending).insertedResult =
      some GradeSubmission.cexResult ∧
    GradeSubmission.cexResult.criteria_scores =
      [⟨"c1", 50, "overshoots the weight", []⟩] ∧
    GradeSubmission.cexEnv.rubricCriteria = [GradeSubmission.crit1] ∧
    GradeSubmission.crit1.id = "c1" ∧ GradeSubmission.crit1.weight = 10 ∧
    ¬ ((50 : ℚ) ≤ 10) := by
  refine ⟨?_, rfl, rfl, rfl, rfl, by norm_num⟩
  rw [GradeSubmission.gradeHandler_cexEnv]

/-- C8 (corrected): the 50-character minimum applies only in the AI-vision
extraction branch (every non-`.txt`/`.md` extension): there, extracted text
shorter than 50 characters fails with the insufficient-content response and
status `error`.  The claim's inclusion of `.txt`/`.md` fails: the plain-text
branch has no length check and proceeds to the grading AI call regardless
(see the counterexample). -/
theorem insufficientContent_vision_only (env : GradeSubmission.Env) (s0 : Status)
    (h1 : env.jsonParseOk = true) (h2 : env.requestValid = true)
    (h3 : env.hasAuthHeader = true) (h4 : env.submissionFound = true)
    (h5 : env.focusFound = true) (h6 : env.rubricFound = true)
    (h7 : env.listOk = true) (h8 : env.fileFound = true)
    (h9 : env.fileSize ≤ GradeSubmission.MAX_FILE_SIZE) (h10 : env.downloadOk = true)
    (h11 : env.fileExt.isPlainText = false)
    (h12 : env.apiKeySet = true) (h13 : env.extractionOk = true)
    (h14 : env.extractedText.length < 50) :
    GradeSubmission.gradeHandler env s0 =
      ⟨GradeSubmission.Resp.insufficientContent, Status.error, true, none⟩ := by
  unfold GradeSubmission.gradeHandler
  simp [h1, h2, h3, h4, h5, h6, h7, h8, h10, h11, h12, h13, h14, Nat.not_lt.mpr h9]

/-- Witness for C8 as amended: a `.pdf` submission whose vision extraction
yields 9 characters is rejected as insufficient with status `error`. -/
theorem insufficientContent_vision_only_witness :
    GradeSubmission.gradeHandler GradeSubmission.visionEnv Status.pending =
      ⟨GradeSubmission.Resp.insufficientContent, Status.error, true, none⟩ :=
  insufficientContent_vision_only GradeSubmission.visionEnv Status.pending
    rfl rfl rfl rfl rfl rfl rfl rfl (by decide) rfl rfl rfl rfl (by decide)

/-- Counterexample to C8 as stated: a `.txt` submission whose extracted text
has only 10 characters is not rejected — the run proceeds to the grading AI
call and ends `graded` with a stored result. -/
theorem insufficientContent_counterexample :
    GradeSubmission.cexEnv.fileExt = FileExt.txt ∧
    GradeSubmission.cexEnv.plainText.length < 50 ∧
    GradeSubmission.gradeHandler GradeSubmission.cexEnv Status.pending =
      ⟨GradeSubmission.Resp.success 500, Status.graded, true,
        some GradeSubmission.cexResult⟩ := by
  refine ⟨rfl, by decide, ?_⟩
  exact GradeSubmission.gradeHandler_cexEnv

namespace ProcessRubric

/-- Full evaluation on `renvNoArgs`: an AI reply with no tool-call arguments
is not rejected — the handler commits an empty criteria list, creates a
default profile selecting nothing, and reports success. -/
theorem processRubric_renvNoArgs :
    processRubric renvNoArgs = ⟨Resp.success [], true, some [], some []⟩ := by
  unfold processRubric processText
  simp [renvNoArgs, renvGood, MAX_FILE_SIZE]

/-- Full evaluation on `renvLong`: an extracted rubric text of 100001
characters is rejected as invalid input; nothing is stored. -/
theorem processRubric_renvLong :
    processRubric renvLong = ⟨Resp.invalidInput, true, none, none⟩ := by
  have hlen : longText.length = 100001 := List.length_replicate 100001 'a'
  unfold processRubric processText
  simp [renvLong, renvGood, MAX_FILE_SIZE, hlen]

end ProcessRubric

/-- C6 (corrected): in the criteria-extraction pipeline an extracted rubric
text longer than 100000 characters makes the request fail with the generic
invalid-input response (HTTP 400) and nothing is written; no truncation is
applied in this pipeline (the head/tail truncation exists only in the
grading pipeline, with `maxLen = 200000`).  The claim's "truncated and
processing continues" fails (see the counterexample). -/
theorem oversizedRubricText_rejected (env : ProcessRubric.Env)
    (h1 : env.jsonParseOk = true) (h2 : env.requestValid = true)
    (h3 : env.hasAuthHeader = true) (h4 : env.userOk = true)
    (h5 : env.withinLimit = true) (h6 : env.rubricFound = true)
    (h7 : env.listOk = true) (h8 : env.fileFound = true)
    (h9 : env.fileSize ≤ ProcessRubric.MAX_FILE_SIZE) (h10 : env.downloadOk = true)
    (h11 : env.fileExt = FileExt.txt)
    (h12 : 100000 < env.plainText.length) :
    ProcessRubric.processRubric env =
      ⟨ProcessRubric.Resp.invalidInput, true, none, none⟩ := by
  have h13 : ¬ env.plainText.length < 20 := by omega
  unfold ProcessRubric.processRubric ProcessRubric.processText
  simp [h1, h2, h3, h4, h5, h6, h7, h8, h10, h11, h12, h13, Nat.not_lt.mpr h9]

/-- Witness for C6 as amended: the concrete 100001-character rubric text is
rejected with invalid input and nothing stored. -/
theorem oversizedRubricText_rejected_witness :
    ProcessRubric.processRubric ProcessRubric.renvLong =
      ⟨ProcessRubric.Resp.invalidInput, true, none, none⟩ := by
  have hlen : ProcessRubric.longText.length = 100001 := List.length_replicate 100001 'a'
  exact oversizedRubricText_rejected ProcessRubric.renvLong
    rfl rfl rfl rfl rfl rfl rfl rfl (by decide) rfl rfl (by rw [show ProcessRubric.renvLong.plainText = ProcessRubric.longText from rfl, hlen]; norm_num)

/-- Counterexample to C6 as stated: the 100001-character rubric text does not
continue through the pipeline — the request fails with invalid input and the
rubric row is never updated. -/
theorem oversizedRubricText_counterexample :
    100000 < ProcessRubric.renvLong.plainText.length ∧
    (ProcessRubric.processRubric ProcessRubric.renvLong).resp =
      ProcessRubric.Resp.invalidInput ∧
    (ProcessRubric.processRubric ProcessRubric.renvLong).storedCriteria = none := by
  have hlen : ProcessRubric.longText.length = 100001 := List.length_replicate 100001 'a'
  refine ⟨?_, ?_, ?_⟩
  · rw [show ProcessRubric.renvLong.plainText = ProcessRubric.longText from rfl, hlen]
    norm_num
  · rw [ProcessRubric.processRubric_renvLong]
  · rw [ProcessRubric.processRubric_renvLong]

/-- C7 (corrected): a tool-call payload that is present but fails the
criteria schema yields the AI-invalid response (HTTP 500) with no commit —
but a reply carrying no tool-call arguments at all is not rejected: the
handler keeps its `criteria = []` initializer, overwrites the rubric's stored
criteria with the empty list, and reports success (see the counterexample),
so the claim's "no partial commit for any non-conforming reply" fails. -/
theorem aiResponseInvalid_vs_missingArgs (env : ProcessRubric.Env)
    (raw : ProcessRubric.AIResponse)
    (h1 : env.jsonParseOk = true) (h2 : env.requestValid = true)
    (h3 : env.hasAuthHeader = true) (h4 : env.userOk = true)
    (h5 : env.withinLimit = true) (h6 : env.rubricFound = true)
    (h7 : env.listOk = true) (h8 : env.fileFound = true)
    (h9 : env.fileSize ≤ ProcessRubric.MAX_FILE_SIZE) (h10 : env.downloadOk = true)
    (h11 : env.fileExt = FileExt.txt)
    (h12 : ¬ env.plainText.length < 20) (h13 : env.plainText.length ≤ 100000)
    (h14 : env.apiKeySet = true) (h15 : env.aiOk = true) :
    (env.toolArgs = some (some raw) → ProcessRubric.validAIResponse raw = false →
      ProcessRubric.processRubric env =
        ⟨ProcessRubric.Resp.aiError 500, true, none, none⟩) ∧
    (env.toolArgs = none → env.updateOk = true →
      (ProcessRubric.processRubric env).resp = ProcessRubric.Resp.success [] ∧
      (ProcessRubric.processRubric env).storedCriteria = some []) := by
  have h16 : ¬ 100000 < env.plainText.length := by omega
  constructor
  · intro hta hbad
    unfold ProcessRubric.processRubric ProcessRubric.processText
    simp [h1, h2, h3, h4, h5, h6, h7, h8, h10, h11, h12, h14, h15, h16,
      Nat.not_lt.mpr h9, hta, hbad]
  · intro hta hupd
    unfold ProcessRubric.processRubric ProcessRubric.processText
    simp [h1, h2, h3, h4, h5, h6, h7, h8, h10, h11, h12, h14, h15, h16,
      Nat.not_lt.mpr h9, hta, hupd]

/-- Witness for C7 as amended: the schema-invalid payload (empty criterion
id) is rejected with no commit, while the argument-less reply commits the
empty list. -/
theorem aiResponseInvalid_vs_missingArgs_witness :
    ProcessRubric.processRubric ProcessRubric.renvBadArgs =
      ⟨ProcessRubric.Resp.aiError 500, true, none, none⟩ ∧
    (ProcessRubric.processRubric ProcessRubric.renvNoArgs).resp =
      ProcessRubric.Resp.success [] ∧
    (ProcessRubric.processRubric ProcessRubric.renvNoArgs).storedCriteria = some [] := by
  have hbad := (aiResponseInvalid_vs_missingArgs ProcessRubric.renvBadArgs
    ProcessRubric.badCriteria rfl rfl rfl rfl rfl rfl rfl rfl (by decide) rfl rfl
    (by decide) (by decide) rfl rfl).1 rfl (by decide)
  have hnone := (aiResponseInvalid_vs_missingArgs ProcessRubric.renvNoArgs
    ProcessRubric.badCriteria rfl rfl rfl rfl rfl rfl rfl rfl (by decide) rfl rfl
    (by decide) (by decide) rfl rfl).2 rfl rfl
  exact ⟨hbad, hnone.1, hnone.2⟩

/-- Counterexample to C7 as stated: the reply with no tool-call arguments is
a non-conforming reply, yet the handler reports success and overwrites the
rubric's stored criteria with the empty list — a commit, not
`AIResponseInvalid`. -/
theorem missingArgs_commits_counterexample :
    ProcessRubric.renvNoArgs.toolArgs = none ∧
    (ProcessRubric.processRubric ProcessRubric.renvNoArgs).resp =
      ProcessRubric.Resp.success [] ∧
    (ProcessRubric.processRubric ProcessRubric.renvNoArgs).storedCriteria = some [] := by
  refine ⟨rfl, ?_, ?_⟩
  · rw [ProcessRubric.processRubric_renvNoArgs]
  · rw [ProcessRubric.processRubric_renvNoArgs]

/-- C9 (confirmed): in both pipelines, whenever the listed metadata size
exceeds the cap (10 MB for submissions, 5 MB for rubric documents), the
storage download is never invoked — on any path — and a run that reaches the
size check fails with the file-too-large response. -/
theorem sizeGate_precedes_download (genv : GradeSubmission.Env) (s0 : Status)
    (renv : ProcessRubric.Env)
    (hg : GradeSubmission.MAX_FILE_SIZE < genv.fileSize)
    (hr : ProcessRubric.MAX_FILE_SIZE < renv.fileSize) :
    (GradeSubmission.gradeHandler genv s0).downloadInvoked = false ∧
    (ProcessRubric.processRubric renv).downloadInvoked = false ∧
    (genv.jsonParseOk = true → genv.requestValid = true → genv.hasAuthHeader = true →
      genv.submissionFound = true → genv.focusFound = true → genv.rubricFound = true →
      genv.listOk = true → genv.fileFound = true →
      GradeSubmission.gradeHandler genv s0 =
        ⟨GradeSubmission.Resp.fileTooLarge, Status.error, false, none⟩) ∧
    (renv.jsonParseOk = true → renv.requestValid = true → renv.hasAuthHeader = true →
      renv.userOk = true → renv.withinLimit = true → renv.rubricFound = true →
      renv.listOk = true → renv.fileFound = true →
      ProcessRubric.processRubric renv =
        ⟨ProcessRubric.Resp.fileTooLarge, false, none, none⟩) := by
  refine ⟨?_, ?_, ?_, ?_⟩
  · unfold GradeSubmission.gradeHandler
    repeat' split
    all_goals first | rfl | (exact absurd hg (by assumption))
  · unfold ProcessRubric.processRubric
    repeat' split
    all_goals first | rfl | (exact absurd hr (by assumption))
  · intro g1 g2 g3 g4 g5 g6 g7 g8
    unfold GradeSubmission.gradeHandler
    simp [g1, g2, g3, g4, g5, g6, g7, g8, hg]
  · intro r1 r2 r3 r4 r5 r6 r7 r8
    unfold ProcessRubric.processRubric
    simp [r1, r2, r3, r4, r5, r6, r7, r8, hr]

/-- Witness for C9: a 10 MB + 1 byte submission and a 5 MB + 1 byte rubric
document are both rejected as too large with no download invoked. -/
theorem sizeGate_precedes_download_witness :
    (GradeSubmission.gradeHandler GradeSubmission.bigFileEnv Status.pending).downloadInvoked =
      false ∧
    (ProcessRubric.processRubric ProcessRubric.renvBig).downloadInvoked = false ∧
    GradeSubmission.gradeHandler GradeSubmission.bigFileEnv Status.pending =
      ⟨GradeSubmission.Resp.fileTooLarge, Status.error, false, none⟩ ∧
    ProcessRubric.processRubric ProcessRubric.renvBig =
      ⟨ProcessRubric.Resp.fileTooLarge, false, none, none⟩ := by
  have h := sizeGate_precedes_download GradeSubmission.bigFileEnv Status.pending
    ProcessRubric.renvBig (by decide) (by decide)
  exact ⟨h.1, h.2.1, h.2.2.1 rfl rfl rfl rfl rfl rfl rfl rfl,
    h.2.2.2 rfl rfl rfl rfl rfl rfl rfl rfl⟩

end AceGrader
